import Mathlib

/-!
Shallow embedding of `src/protect-api.ts` (class `ProtectApi` of the
homebridge-unifi-protect2 plugin), together with theorems settling the
frozen claims about it.

Modelling conventions:
* The mutable fields of the `ProtectApi` object form the record `ApiState`.
* The network is an oracle: each outbound HTTP attempt consumes the head of
  a list of scheduled `NetResult` values (a transport exception or a
  `Response`).  A result is consumed only when the call actually reaches
  the network, so "no network attempt" is observable as an untouched
  oracle and an untouched request log.
* Each public operation receives the current wall-clock time `now`
  (JavaScript `Date.now()`) as a parameter; the numeric settings constants
  (error limit, retry interval, login refresh interval, heartbeat
  interval) live in a separate file of the repository and are passed as
  parameters `L`, `R`, `F`, `I`.
* JavaScript exceptions that escape a method are modelled with
  `Except String`; methods that cannot throw are total functions.
* Logging calls are not modelled; the user-visible discovery/removal
  notifications of `refreshDevices` are returned as an explicit `DiffOut`
  value computed by `diffDevices`.
-/

namespace Protect

/-- A per-stream channel of a camera, as used by the code
(`ProtectCameraChannelConfigInterface`): only the fields the code reads. -/
structure Channel where
  id : Nat
  isRtspEnabled : Bool
  deriving DecidableEq

/-- A camera record of the bootstrap (`ProtectCameraConfig`); `channels` is
`none` when the JSON object lacks the field (JS `undefined`). -/
structure Camera where
  mac : String
  id : String
  modelKey : String
  isManaged : Bool
  channels : Option (List Channel)
  deriving DecidableEq

/-- A user record of the bootstrap (`ProtectNvrUserConfig`). -/
structure UserRecord where
  id : String
  allPermissions : Option (List String)
  deriving DecidableEq

/-- The parsed bootstrap JSON (`ProtectNvrBootstrap`); `cameras` and
`users` are `none` when the respective field is missing. -/
structure Bootstrap where
  cameras : Option (List Camera)
  users : Option (List UserRecord)
  authUserId : String
  deriving DecidableEq

/-- A JSON document a controller endpoint can return: the bootstrap shape,
a camera object (returned by the PATCH endpoints), or something else. -/
inductive Body where
  | bootstrapData (b : Bootstrap)
  | cameraData (c : Camera)
  | otherData
  deriving DecidableEq

/-- Outcome of `response.json()`: `malformed` makes the call throw. -/
inductive BodyResult where
  | malformed
  | parsed (b : Body)
  deriving DecidableEq

/-- An HTTP response as node-fetch presents it to the code. -/
structure Response where
  status : Nat
  headers : List (String × String)
  body : BodyResult
  deriving DecidableEq

/-- node-fetch `response.ok`: status in the range 200-299. -/
def Response.ok (r : Response) : Bool := 200 ≤ r.status && r.status < 300

/-- What the network does with one attempted request: raise a transport
exception (`error.code` carried as a string) or deliver a response. -/
inductive NetResult where
  | netThrow (code : String)
  | netResp (r : Response)
  deriving DecidableEq

/-- The https agent: the only property the claims observe is whether
keepalive connection reuse was enabled. -/
structure Agent where
  keepAlive : Bool
  deriving DecidableEq

/-- The mutable instance state of the `ProtectApi` class.  `eventListener`
records whether a websocket handle is present (`null` = `false`), and
`eventHeartbeatTimer` holds the absolute deadline of the pending heartbeat
timeout, if any. -/
structure ApiState where
  apiErrorCount : Nat
  apiLastSuccess : Nat
  bootstrap : Option Bootstrap
  Cameras : Option (List Camera)
  eventHeartbeatTimer : Option Nat
  eventListener : Bool
  eventListenerConfigured : Bool
  headers : List (String × String)
  httpsAgent : Agent
  isAdminUser : Bool
  isUnifiOs : Bool
  loggedIn : Bool
  loginAge : Nat
  deriving DecidableEq

/-- JS truthiness of a nullable string: `null`/`undefined` and the empty
string are falsy. -/
def jsStr : Option String → Option String
  | none => none
  | some s => if s = "" then none else some s

/-- JS `opt?.some(p)` over a possibly missing array: `undefined` is falsy. -/
def jsSome (l : Option (List α)) (p : α → Bool) : Bool :=
  match l with
  | none => false
  | some xs => xs.any p

/-- Headers.has. -/
def headersHas (hs : List (String × String)) (n : String) : Bool :=
  hs.any (fun p => p.1 == n)

/-- Headers.get (null when absent). -/
def headersGet (hs : List (String × String)) (n : String) : Option String :=
  (hs.find? (fun p => p.1 == n)).map (fun p => p.2)

/-- Headers.set: replace any existing value for the name. -/
def headersSet (hs : List (String × String)) (n v : String) : List (String × String) :=
  hs.filter (fun p => !(p.1 == n)) ++ [(n, v)]

/-- The headers a fresh `Headers` object gets (`Content-Type` only). -/
def initHeaders : List (String × String) := [("Content-Type", "application/json")]

/-- Accumulator of one character-separated field, for `jsSplit`. -/
def splitAux (sep : Char) : List Char → List Char → List String
  | [], acc => [String.mk acc.reverse]
  | c :: rest, acc =>
    if c = sep then String.mk acc.reverse :: splitAux sep rest []
    else splitAux sep rest (c :: acc)

/-- JS `String.prototype.split` with a single-character separator (the code
only splits on the characters `:` and `,`). -/
def jsSplit (s : String) (sep : Char) : List String := splitAux sep s.data []

/-- Which endpoint an outbound request targets; used to log network
attempts so that "zero network calls" and "one authentication round trip"
are observable. -/
inductive ReqKind where
  | probeRoot
  | probePort
  | auth
  | bootstrapReq
  | cameraPatch
  deriving DecidableEq

/-- The state threaded through an operation: the object state, the pending
network oracle, and the log of requests that actually reached the
network. -/
structure Ctx where
  state : ApiState
  env : List NetResult
  log : List ReqKind
  deriving DecidableEq

/-- clearLoginCredentials: reset session, snapshot and listener state and
recreate a connection-agnostic (no keepalive) https agent. -/
def clearLoginCredentials (s : ApiState) : ApiState :=
  { s with
    isAdminUser := false
    isUnifiOs := false
    loggedIn := false
    loginAge := 0
    bootstrap := none
    eventListener := false
    eventListenerConfigured := false
    headers := initHeaders
    httpsAgent := { keepAlive := false } }

/-- The part of `fetch` after the throttle gate: perform the network
request, catch transport exceptions, and (when `decodeResponse`) turn
401/403/other non-OK statuses into a `null` result while counting the
error; an OK decoded response resets the error counter and records the
success time. -/
def fetchNet (s : ApiState) (now : Nat) (net : NetResult) (decodeResponse : Bool) :
    ApiState × Option Response × Bool :=
  match net with
  | .netThrow _ => ({ s with apiErrorCount := s.apiErrorCount + 1 }, none, true)
  | .netResp r =>
    if !decodeResponse then (s, some r, true)
    else if r.status = 401 then ({ s with apiErrorCount := s.apiErrorCount + 1 }, none, true)
    else if r.status = 403 then ({ s with apiErrorCount := s.apiErrorCount + 1 }, none, true)
    else if !r.ok then ({ s with apiErrorCount := s.apiErrorCount + 1 }, none, true)
    else ({ s with apiLastSuccess := now, apiErrorCount := 0 }, some r, true)

/-- The `fetch` wrapper (governor): once `apiErrorCount` reaches the limit
`L` the call that hits the limit is rejected locally, bumps the counter
past the limit and starts the cooldown clock; later calls are rejected
locally until `R` seconds have passed since `apiLastSuccess`; when the
cooldown has elapsed the counter is cleared and the request proceeds.
The third component of the result tells whether the network was
attempted. -/
def fetch (L R : Nat) (s : ApiState) (now : Nat) (net : NetResult) (decodeResponse : Bool) :
    ApiState × Option Response × Bool :=
  if L ≤ s.apiErrorCount then
    if s.apiErrorCount = L then
      ({ s with apiErrorCount := s.apiErrorCount + 1, apiLastSuccess := now }, none, false)
    else if now < s.apiLastSuccess + R * 1000 then
      (s, none, false)
    else
      fetchNet { s with apiErrorCount := 0 } now net decodeResponse
  else
    fetchNet s now net decodeResponse

/-- Network result used when the oracle is exhausted (irrelevant default:
theorems always schedule enough results). -/
def headNet (env : List NetResult) : NetResult := env.headD (.netThrow "ECONNREFUSED")

/-- One call to `this.fetch` from inside an operation: feed the next
scheduled network result to the governor and, if the network was actually
attempted, consume it and log the request. -/
def doFetch (L R now : Nat) (k : ReqKind) (decodeResponse : Bool) (c : Ctx) :
    Ctx × Option Response :=
  let net := headNet c.env
  let (s, r, att) := fetch L R c.state now net decodeResponse
  if att then ({ state := s, env := c.env.tail, log := c.log ++ [k] }, r)
  else ({ c with state := s }, r)

/-- The fallback half of `acquireToken`: probe the UCK Gen2+ port 7443;
an OK response identifies the legacy device family. -/
def acquireTokenPort (L R now : Nat) (c : Ctx) : Ctx × Bool :=
  let (c1, r2) := doFetch L R now .probePort true c
  match r2 with
  | some r => if r.ok then (c1, true) else (c1, false)
  | none => (c1, false)

/-- acquireToken: skip if already logged in or a token header is present;
otherwise probe the bare NVR address and, if the response carries a
(truthy) `X-CSRF-Token` header, record UniFi OS and switch to a keepalive
agent; failing that, probe port 7443 for a UCK Gen2+ device. -/
def acquireToken (L R now : Nat) (c : Ctx) : Ctx × Bool :=
  if c.state.loggedIn || headersHas c.state.headers "X-CSRF-Token" ||
      headersHas c.state.headers "Authorization" then
    (c, true)
  else
    let (c1, r1) := doFetch L R now .probeRoot true c
    match r1 with
    | some r =>
      if r.ok then
        match jsStr (headersGet r.headers "X-CSRF-Token") with
        | some tok =>
          ({ c1 with state := { c1.state with
              headers := headersSet c1.state.headers "X-CSRF-Token" tok
              isUnifiOs := true
              httpsAgent := { keepAlive := true } } }, true)
        | none => acquireTokenPort L R now c1
      else acquireTokenPort L R now c1
    | none => acquireTokenPort L R now c1

/-- The UCK bearer-token half of the login response handling: if the
response carries a truthy `Authorization` header store it as a bearer
token, otherwise clear all login credentials and fail. -/
def loginBearer (c : Ctx) (s : ApiState) (r : Response) : Ctx × Bool :=
  match jsStr (headersGet r.headers "Authorization") with
  | some tok =>
    ({ c with state := { s with headers := headersSet s.headers "Authorization" ("Bearer " ++ tok) } }, true)
  | none => ({ c with state := clearLoginCredentials s }, false)

/-- The part of `loginProtect` after the short-circuit checks: ensure the
device type is known, POST the credentials, and on success store either
the rotated CSRF token plus cookie (UniFi OS) or a bearer token (UCK); a
response with neither shape clears all session state. -/
def loginProtectBody (L R now : Nat) (c : Ctx) : Ctx × Bool :=
  match acquireToken L R now c with
    | (c2, false) => (c2, false)
    | (c2, true) =>
      let (c3, resp) := doFetch L R now .auth true c2
      match resp with
      | none => (c3, false)
      | some r =>
        if !r.ok then (c3, false)
        else
          let s := { c3.state with loggedIn := true, loginAge := now }
          match jsStr (headersGet r.headers "X-CSRF-Token"),
                jsStr (headersGet r.headers "Set-Cookie") with
          | some tok, some cook =>
            if headersHas s.headers "X-CSRF-Token" then
              ({ c3 with state := { s with
                  headers := headersSet (headersSet s.headers "Cookie" cook) "X-CSRF-Token" tok } },
               true)
            else loginBearer c3 s r
          | _, _ => loginBearer c3 s r

/-- loginProtect: drop the session when the refresh interval `F` has
elapsed since the last login; short-circuit when still logged in;
otherwise run the full login sequence. -/
def loginProtect (L R F now : Nat) (c : Ctx) : Ctx × Bool :=
  let s0 := c.state
  let s1 := if s0.loginAge + F * 1000 < now then
      { s0 with loggedIn := false, headers := initHeaders }
    else s0
  if s1.loggedIn then ({ c with state := s1 }, true)
  else loginProtectBody L R now { c with state := s1 }

/-- One permission line of `checkAdminUserStatus`: lines whose first
colon-separated field is not `camera` are skipped; on a camera line the
code indexes field 1 unconditionally, so a camera line without a second
field throws a TypeError (`undefined.split`). -/
def permLineAdmin (entry : String) : Except String Bool :=
  let permType := jsSplit entry ':'
  if permType.headD "" ≠ "camera" then .ok false
  else
    match permType.get? 1 with
    | none => .error "TypeError: undefined has no method split"
    | some caps => .ok ((jsSplit caps ',').contains "write")

/-- The permission scan loop: stop at the first camera line whose
capability list contains `write`. -/
def computeAdmin : List String → Except String Bool
  | [] => .ok false
  | e :: rest =>
    match permLineAdmin e with
    | .error msg => .error msg
    | .ok true => .ok true
    | .ok false => computeAdmin rest

/-- checkAdminUserStatus: bail out (leaving `isAdminUser` untouched) when
the snapshot, its user list, the authenticated user record or its
permissions are missing; otherwise recompute `isAdminUser` from the
permission lines. -/
def checkAdminUserStatus (s : ApiState) (_firstRun : Bool) : Except String (ApiState × Bool) :=
  match s.bootstrap with
  | none => .ok (s, false)
  | some b =>
    match b.users with
    | none => .ok (s, false)
    | some users =>
      match users.find? (fun u => u.id == b.authUserId) with
      | none => .ok (s, false)
      | some u =>
        match u.allPermissions with
        | none => .ok (s, false)
        | some perms =>
          match computeAdmin perms with
          | .error msg => .error msg
          | .ok adm => .ok ({ s with isAdminUser := adm }, true)

/-- launchEventListener: ensure login, return immediately when a websocket
handle already exists, otherwise open the websocket (always succeeds in
the model) and register the heartbeat handlers. -/
def launchEventListener (L R F now : Nat) (c : Ctx) : Ctx × Bool :=
  match loginProtect L R F now c with
  | (c1, false) => (c1, false)
  | (c1, true) =>
    if c1.state.eventListener then (c1, true)
    else ({ c1 with state := { c1.state with eventListener := true } }, true)

/-- `response.json()` as used with a try/catch: `none` when parsing threw. -/
def jsonOf : BodyResult → Option Body
  | .malformed => none
  | .parsed b => some b

/-- Dynamic access `data.cameras`: only a bootstrap-shaped document has the
field. -/
def Body.camerasOf : Body → Option (List Camera)
  | .bootstrapData b => b.cameras
  | _ => none

/-- bootstrapProtect: log in, fetch the bootstrap endpoint, and on a null
response, an unparseable body or a body without a camera list clear all
credentials (including the stored snapshot) and fail; on success store the
snapshot, recompute admin status (which may throw on malformed permission
lines) and, on UniFi OS, ensure the event listener is running. -/
def bootstrapProtect (L R F now : Nat) (c : Ctx) : Except String (Ctx × Bool) :=
  match loginProtect L R F now c with
  | (c1, false) => .ok (c1, false)
  | (c1, true) =>
    let (c2, resp) := doFetch L R now .bootstrapReq true c1
    match resp with
    | none => .ok ({ c2 with state := clearLoginCredentials c2.state }, false)
    | some r =>
      if !r.ok then .ok ({ c2 with state := clearLoginCredentials c2.state }, false)
      else
        match jsonOf r.body with
        | some (.bootstrapData b) =>
          if b.cameras.isSome then
            let firstRun := c2.state.bootstrap.isNone
            let s3 := { c2.state with bootstrap := some b }
            match checkAdminUserStatus s3 firstRun with
            | .error e => .error e
            | .ok (s4, _) =>
              if s4.isUnifiOs then .ok (launchEventListener L R F now { c2 with state := s4 })
              else .ok ({ c2 with state := s4 }, true)
          else .ok ({ c2 with state := clearLoginCredentials c2.state }, false)
        | _ => .ok ({ c2 with state := clearLoginCredentials c2.state }, false)

/-- The discovery/removal notifications `refreshDevices` emits: a new-list
entry with an unknown mac is discovered when managed; an old-list entry
whose mac is gone from the new list is removed. -/
structure DiffOut where
  discovered : List Camera
  removed : List Camera
  deriving DecidableEq

/-- Is a mac present in a possibly missing camera list (JS `l?.some`). -/
def knownMac (l : Option (List Camera)) (m : String) : Bool :=
  jsSome l (fun x => x.mac == m)

/-- The device-list diff of `refreshDevices`, by mac identity. -/
def diffDevices (oldList newList : Option (List Camera)) : DiffOut :=
  { discovered :=
      match newList with
      | none => []
      | some nl => nl.filter (fun d => !(knownMac oldList d.mac) && d.isManaged)
    removed :=
      match oldList with
      | none => []
      | some ol => ol.filter (fun d => !(knownMac newList d.mac)) }

/-- refreshDevices: bootstrap, diff the fresh camera list against the
previously saved one, and save the fresh list. -/
def refreshDevices (L R F now : Nat) (c : Ctx) : Except String (Ctx × DiffOut × Bool) :=
  match bootstrapProtect L R F now c with
  | .error e => .error e
  | .ok (c1, false) => .ok (c1, ⟨[], []⟩, false)
  | .ok (c1, true) =>
    let newDeviceList := c1.state.bootstrap.bind Bootstrap.cameras
    let d := diffDevices c1.state.Cameras newDeviceList
    .ok ({ c1 with state := { c1.state with Cameras := newDeviceList } }, d, true)

/-- isAllRtspConfigured: despite the name, reports whether some camera of
the snapshot still has a channel with RTSP disabled; `none` models the JS
`undefined` produced when the snapshot or its camera list is missing. -/
def isAllRtspConfigured (s : ApiState) : Option Bool :=
  match s.bootstrap with
  | none => none
  | some b =>
    match b.cameras with
    | none => none
    | some cams =>
      some (cams.any (fun cam => jsSome cam.channels (fun ch => !ch.isRtspEnabled)))

/-- What `enableRtsp`/`updateCamera` return: `deviceObj` is the caller
object handed back (possibly after local channel mutation), `jsonBody` the
decoded response document. -/
inductive RtspResult where
  | deviceObj (d : Camera)
  | jsonBody (b : Body)
  deriving DecidableEq

/-- enableRtsp: gate on login, admin role and device kind; return the
device untouched (with no network traffic) when no channel needs enabling;
otherwise enable every channel locally and PATCH the channel list with
`decodeResponse = false`.  A null response (throttled call or transport
error) makes the subsequent `response.status` dereference throw a
TypeError, and a malformed body of an OK response makes `response.json()`
throw. -/
def enableRtsp (L R F now : Nat) (c : Ctx) (device : Camera) :
    Except String (Ctx × Option RtspResult) :=
  match loginProtect L R F now c with
  | (c1, false) => .ok (c1, none)
  | (c1, true) =>
    if !c1.state.isAdminUser then .ok (c1, none)
    else if device.modelKey ≠ "camera" then .ok (c1, none)
    else if !(jsSome device.channels (fun ch => !ch.isRtspEnabled)) then
      .ok (c1, some (.deviceObj device))
    else
      let device2 := { device with
        channels := some ((device.channels.getD []).map (fun ch => { ch with isRtspEnabled := true })) }
      let (c2, resp) := doFetch L R now .cameraPatch false c1
      match resp with
      | none => .error "TypeError: null has no property status"
      | some r =>
        if !r.ok then
          .ok ({ c2 with state := { c2.state with apiErrorCount := c2.state.apiErrorCount + 1 } },
               some (.deviceObj device2))
        else
          match jsonOf r.body with
          | none => .error "FetchError: invalid json response body"
          | some b =>
            .ok ({ c2 with state := { c2.state with apiErrorCount := 0, apiLastSuccess := now } },
                 some (.jsonBody b))

/-- updateCamera: gate on a device object, login and admin role, then
PATCH the payload.  As in `enableRtsp`, a null response makes the
`response.status` dereference in the error log line throw, and a
malformed body of an OK response makes `response.json()` throw. -/
def updateCamera (L R F now : Nat) (c : Ctx) (device : Option Camera) (_payload : Body) :
    Except String (Ctx × Option RtspResult) :=
  match device with
  | none => .ok (c, none)
  | some _ =>
    match loginProtect L R F now c with
    | (c1, false) => .ok (c1, none)
    | (c1, true) =>
      if !c1.state.isAdminUser then .ok (c1, none)
      else
        let (c2, resp) := doFetch L R now .cameraPatch true c1
        match resp with
        | none => .error "TypeError: null has no property status"
        | some r =>
          if !r.ok then .ok (c2, none)
          else
            match jsonOf r.body with
            | none => .error "FetchError: invalid json response body"
            | some b => .ok (c2, some (.jsonBody b))

/-- The websocket events that drive the heartbeat machinery: the `open`
and `ping` handlers, the `close` handler, and the heartbeat timeout
firing (which only happens at the deadline of the pending timer). -/
inductive WsEvent where
  | wsOpen
  | wsPing
  | wsClose
  | wsTimerFire
  deriving DecidableEq

/-- heartbeatEventListener: cancel the pending timer and arm a fresh one
that expires a full silence window `I` (seconds) from now. -/
def heartbeatEventListener (I now : Nat) (s : ApiState) : ApiState :=
  { s with eventHeartbeatTimer := some (now + I * 1000) }

/-- One step of the registered websocket handlers, reading the receiver
inside `heartbeatEventListener` as the client instance — the behavior the
registration intends (see `WsExpando` for what the unbound registration
actually does at runtime): `open` and `ping` rearm the heartbeat timer;
`close` cancels it; the timer firing (at its recorded deadline, with no
keepalive having rearmed it) terminates the connection and clears the
handle and the configured flag. -/
def eventListenerStep (I now : Nat) (s : ApiState) : WsEvent → ApiState
  | .wsOpen => heartbeatEventListener I now s
  | .wsPing => heartbeatEventListener I now s
  | .wsClose => { s with eventHeartbeatTimer := none }
  | .wsTimerFire =>
    if s.eventHeartbeatTimer = some now then
      { s with eventHeartbeatTimer := none, eventListener := false,
               eventListenerConfigured := false }
    else s

/-- Does a network outcome count as a failure for a decoded `fetch` call
(transport exception or non-OK status)? -/
def netFailsDecoded : NetResult → Bool
  | .netThrow _ => true
  | .netResp r => !r.ok

/-- Did the bare-address probe fail to produce a usable CSRF token (the
cases in which `acquireToken` falls through to the port 7443 probe)? -/
def probeNoToken : NetResult → Bool
  | .netThrow _ => true
  | .netResp r => !r.ok || (jsStr (headersGet r.headers "X-CSRF-Token")).isNone

/-- Claim-side predicate: the resource type of a permission line (its
first colon-separated field) is `camera`. -/
def permEntryIsCamera (e : String) : Bool := (jsSplit e ':').headD "" == "camera"

/-- Claim-side predicate: the capability list of a permission line (its
second colon-separated field, split on commas) contains `write`. -/
def permEntryHasWrite (e : String) : Bool :=
  (jsSplit ((jsSplit e ':').getD 1 "") ',').contains "write"

/-- Claim-side predicate: a camera permission line conferring admin. -/
def permEntryAdmin (e : String) : Bool := permEntryIsCamera e && permEntryHasWrite e

/-- A permission line the scan can process without throwing: camera lines
must have a second colon-separated field. -/
def permEntryWellFormed (e : String) : Bool :=
  !(permEntryIsCamera e) || decide (2 ≤ (jsSplit e ':').length)

deriving instance DecidableEq for Except

/-- The state of a freshly constructed client (the constructor runs
`clearLoginCredentials` on zeroed counters). -/
def initialState : ApiState :=
  { apiErrorCount := 0, apiLastSuccess := 0, bootstrap := none, Cameras := none,
    eventHeartbeatTimer := none, eventListener := false, eventListenerConfigured := false,
    headers := initHeaders, httpsAgent := { keepAlive := false }, isAdminUser := false,
    isUnifiOs := false, loggedIn := false, loginAge := 0 }

/-- A plain server-error response with an unparseable body. -/
def resp500 : Response := { status := 500, headers := [], body := .malformed }

/-- A 200 response whose body is not bootstrap-shaped. -/
def respOkPlain : Response := { status := 200, headers := [], body := .parsed .otherData }

/-- A 200 bare-address probe response carrying a CSRF token header. -/
def probeResp : Response :=
  { status := 200, headers := [("X-CSRF-Token", "tokenA")], body := .parsed .otherData }

/-- A 200 login response carrying a rotated CSRF token and a cookie. -/
def authResp : Response :=
  { status := 200, headers := [("X-CSRF-Token", "tokenB"), ("Set-Cookie", "cookie1")],
    body := .parsed .otherData }

/-- A minimal stored bootstrap snapshot. -/
def bootSnap : Bootstrap := { cameras := some [], users := none, authUserId := "u" }

/-- A client that has reached the error threshold (for limit 2): the
governor state after three consecutive failures were counted. -/
def throttledState : ApiState := { initialState with apiErrorCount := 3 }

/-- The call that hits the threshold: with the count at the limit 2, the
call at time 0 is rejected locally and starts the cooldown clock. -/
def throttleHit : ApiState × Option Response × Bool :=
  fetch 2 300 { initialState with apiErrorCount := 2 } 0 (.netResp resp500) true

/-- The probe after the 300-second cooldown has elapsed; the network
fails it with a 500. -/
def throttleProbe : ApiState × Option Response × Bool :=
  fetch 2 300 throttleHit.1 300000 (.netResp resp500) true

/-- The call issued right after the failed probe. -/
def throttleAfterProbe : ApiState × Option Response × Bool :=
  fetch 2 300 throttleProbe.1 300001 (.netResp resp500) true

/-- A logged-in, non-stale client holding a snapshot, about to receive a
500 from the bootstrap endpoint. -/
def snapshotCtx : Ctx :=
  { state := { initialState with loggedIn := true, loginAge := 5, bootstrap := some bootSnap },
    env := [.netResp resp500], log := [] }

/-- Camera constructor used by the diffing examples. -/
def camOf (m : String) (man : Bool) : Camera :=
  { mac := m, id := m, modelKey := "camera", isManaged := man, channels := none }

/-- An admin client whose next snapshot has a user list in which the
authenticated user does not appear. -/
def staleAdminState : ApiState :=
  { initialState with
    isAdminUser := true
    bootstrap := some { cameras := some [], users := some [], authUserId := "u" } }

/-- A snapshot whose authenticated user has camera write permission. -/
def writePermState : ApiState :=
  { initialState with
    bootstrap := some
      { cameras := some []
        users := some [{ id := "u", allPermissions := some ["camera:read,write:all"] }]
        authUserId := "u" } }

/-- A snapshot whose authenticated user has read-only camera permission. -/
def readPermState : ApiState :=
  { initialState with
    bootstrap := some
      { cameras := some []
        users := some [{ id := "u", allPermissions := some ["camera:read:all"] }]
        authUserId := "u" } }

/-- A camera all of whose channels already have RTSP enabled. -/
def allOnDevice : Camera :=
  { mac := "aa", id := "cam1", modelKey := "camera", isManaged := true,
    channels := some [{ id := 0, isRtspEnabled := true }] }

/-- A camera with a channel still lacking RTSP. -/
def offDevice : Camera :=
  { mac := "aa", id := "cam1", modelKey := "camera", isManaged := true,
    channels := some [{ id := 0, isRtspEnabled := false }] }

/-- A logged-in, non-stale admin client. -/
def adminCtx : Ctx :=
  { state := { initialState with loggedIn := true, loginAge := 5, isAdminUser := true },
    env := [], log := [] }

/-- The admin client about to suffer a transport error on its next call. -/
def adminRefusedCtx : Ctx :=
  { state := { initialState with loggedIn := true, loginAge := 5, isAdminUser := true },
    env := [.netThrow "ECONNREFUSED"], log := [] }

/-- The expando properties the heartbeat handler actually touches at
runtime.  The `open` and `ping` handlers are registered as
`this.eventListener.on("open", this.heartbeatEventListener)` — an unbound
method reference — and the Node event emitter invokes listeners with
`this` set to the emitter, so inside `heartbeatEventListener` both `this`
and the captured `self` denote the WebSocket object, not the `ProtectApi`
instance.  The handler therefore reads and writes these properties of the
socket object (all initially `undefined`), and the `ProtectApi` state is
never touched by it. -/
structure WsExpando where
  eventHeartbeatTimer : Option Nat
  eventListener : Option Unit
  eventListenerConfigured : Option Bool
  deriving DecidableEq

/-- `heartbeatEventListener` as actually invoked on open/ping (receiver:
the socket object): cancel and rearm the timer property of the socket. -/
def heartbeatEventListenerMisbound (I now : Nat) (w : WsExpando) : WsExpando :=
  { w with eventHeartbeatTimer := some (now + I * 1000) }

/-- The heartbeat timeout callback as actually invoked:
`self.eventListener` is the (undefined) property of the socket object, so
the optional-chained `terminate()` is a no-op, and the null/false writes
land on the socket object — nothing is terminated and the client state is
untouched. -/
def heartbeatTimerFireMisbound (w : WsExpando) : WsExpando :=
  { w with eventListener := none, eventListenerConfigured := some false }

/-- A client whose event listener is up and configured and whose session
is valid: the state in which a heartbeat timeout is supposed to make the
listener eligible for reconnection. -/
def staleListenerCtx : Ctx :=
  { state := { initialState with
      loggedIn := true
      loginAge := 20
      eventListener := true
      eventListenerConfigured := true }
    env := []
    log := [] }

/-- Unfolding of `jsSome` into an existential. -/
theorem jsSome_eq_true {α : Type} {l : Option (List α)} {p : α → Bool} :
    jsSome l p = true ↔ ∃ xs, l = some xs ∧ ∃ x ∈ xs, p x = true := by
  cases l <;> simp [jsSome]

/-- An OK status is strictly between 199 and 300 and hence neither 401
nor 403. -/
theorem Response.ok_iff {r : Response} : r.ok = true ↔ 200 ≤ r.status ∧ r.status < 300 := by
  simp [Response.ok]

/-- `fetchNet` on a transport exception: count the error, return null. -/
theorem fetchNet_throw (s : ApiState) (now : Nat) (e : String) (d : Bool) :
    fetchNet s now (.netThrow e) d = ({ s with apiErrorCount := s.apiErrorCount + 1 }, none, true) :=
  rfl

/-- `fetchNet` on an OK response with decoding: record the success. -/
theorem fetchNet_ok {r : Response} (s : ApiState) (now : Nat) (h : r.ok = true) :
    fetchNet s now (.netResp r) true =
      ({ s with apiLastSuccess := now, apiErrorCount := 0 }, some r, true) := by
  have hb := Response.ok_iff.mp h
  have h1 : ¬ (r.status = 401) := by omega
  have h3 : ¬ (r.status = 403) := by omega
  simp [fetchNet, h1, h3, h]

/-- `fetchNet` on a non-OK response with decoding: count the error,
return null. -/
theorem fetchNet_bad {r : Response} (s : ApiState) (now : Nat) (h : r.ok = false) :
    fetchNet s now (.netResp r) true =
      ({ s with apiErrorCount := s.apiErrorCount + 1 }, none, true) := by
  by_cases h1 : r.status = 401
  · simp [fetchNet, h1]
  · by_cases h3 : r.status = 403
    · simp [fetchNet, h1, h3]
    · simp [fetchNet, h1, h3, h]

/-- `fetchNet` without decoding hands any response straight back. -/
theorem fetchNet_undecoded (s : ApiState) (now : Nat) (r : Response) :
    fetchNet s now (.netResp r) false = (s, some r, true) := rfl

/-- `fetchNet` always reaches the network. -/
theorem fetchNet_attempted (s : ApiState) (now : Nat) (net : NetResult) (d : Bool) :
    (fetchNet s now net d).2.2 = true := by
  unfold fetchNet
  cases net with
  | netThrow e => rfl
  | netResp r => by_cases h1 : r.status = 401 <;> by_cases h3 : r.status = 403 <;>
      cases d <;> cases hok : r.ok <;> simp [h1, h3, hok]

/-- Below the threshold the governor is transparent. -/
theorem fetch_below (L R : Nat) (s : ApiState) (now : Nat) (net : NetResult) (d : Bool)
    (h : s.apiErrorCount < L) : fetch L R s now net d = fetchNet s now net d := by
  simp [fetch, Nat.not_le.mpr h]

/-- A `doFetch` whose governor is below the threshold: consume the head of
the oracle, log the request. -/
theorem doFetch_run (L R now : Nat) (k : ReqKind) (d : Bool) (c : Ctx) (net : NetResult)
    (env2 : List NetResult) (henv : c.env = net :: env2) (hcnt : c.state.apiErrorCount < L) :
    doFetch L R now k d c =
      ({ state := (fetchNet c.state now net d).1, env := env2, log := c.log ++ [k] },
       (fetchNet c.state now net d).2.1) := by
  unfold doFetch
  rw [henv]
  simp [headNet, fetch_below L R c.state now net d hcnt, fetchNet_attempted]

/-- Setting a header makes it present. -/
theorem headersHas_set_self (hs : List (String × String)) (n v : String) :
    headersHas (headersSet hs n v) n = true := by
  simp [headersHas, headersSet]

/-- A fresh `Headers` object carries no CSRF token. -/
theorem initHeaders_no_csrf : headersHas initHeaders "X-CSRF-Token" = false := by decide

/-- A fresh `Headers` object carries no bearer token. -/
theorem initHeaders_no_auth : headersHas initHeaders "Authorization" = false := by decide

/-- `loginProtect` is a no-op on a logged-in, non-stale session. -/
theorem loginProtect_noop (L R F now : Nat) (c : Ctx) (h1 : c.state.loggedIn = true)
    (h2 : ¬ (c.state.loginAge + F * 1000 < now)) : loginProtect L R F now c = (c, true) := by
  simp [loginProtect, h2, h1]

/-- C1 counterexample.  Walk the governor (with threshold 2 and cooldown
300 s) through the claimed scenario: the call that hits the threshold is
rejected locally and starts the cooldown; the probe after the cooldown is
let through and fails (a 500), leaving the consecutive-error count at 1;
the claim then demands that the failed probe re-enter the cooldown, i.e.
that the very next call be rejected locally without a network attempt —
but the code attempts the network, because the count was reset to 0 when
the cooldown expired and the failed probe only pushed it back to 1. -/
theorem throttle_probe_failure_keeps_flowing :
    throttleHit.2.2 = false ∧ throttleHit.1.apiErrorCount = 3 ∧
    throttleProbe.2.2 = true ∧ throttleProbe.2.1 = none ∧
    throttleProbe.1.apiErrorCount = 1 ∧
    throttleAfterProbe.2.2 = true := by
  refine ⟨rfl, rfl, ?_, ?_, ?_, ?_⟩ <;> decide

/-- C1 (amended): once the consecutive-error count reaches the threshold
`L`, the call hitting it is rejected locally without a network attempt and
starts the cooldown clock; while the cooldown `R` has not elapsed every
call is rejected locally with no state change; once the cooldown has
elapsed the count is cleared and the next call is allowed through — after
it the count is 0 on success and only 1 on failure, so a failed probe does
not re-enter the cooldown until the threshold is reached again; and any
successful decoded call below the threshold resets the count to zero. -/
theorem throttle_governor_amended (L R : Nat) (s : ApiState) (now : Nat) (net : NetResult) :
    (s.apiErrorCount = L →
      fetch L R s now net true =
        ({ s with apiErrorCount := s.apiErrorCount + 1, apiLastSuccess := now }, none, false)) ∧
    (L < s.apiErrorCount → now < s.apiLastSuccess + R * 1000 →
      fetch L R s now net true = (s, none, false)) ∧
    (L < s.apiErrorCount → s.apiLastSuccess + R * 1000 ≤ now →
      (fetch L R s now net true).2.2 = true ∧
      (fetch L R s now net true).1.apiErrorCount = (if netFailsDecoded net then 1 else 0)) ∧
    (s.apiErrorCount < L → netFailsDecoded net = false →
      (fetch L R s now net true).2.2 = true ∧
      (fetch L R s now net true).1.apiErrorCount = 0) := by
  refine ⟨?_, ?_, ?_, ?_⟩
  · intro h
    simp [fetch, h]
  · intro h1 h2
    have hne : ¬ (s.apiErrorCount = L) := by omega
    simp [fetch, Nat.le_of_lt h1, hne, h2]
  · intro h1 h2
    have hne : ¬ (s.apiErrorCount = L) := by omega
    have hlt : ¬ (now < s.apiLastSuccess + R * 1000) := by omega
    rw [fetch, if_pos (Nat.le_of_lt h1), if_neg hne, if_neg hlt]
    cases net with
    | netThrow e => simp [fetchNet_throw, netFailsDecoded]
    | netResp r =>
      cases hok : r.ok with
      | false => simp [fetchNet_bad _ now hok, netFailsDecoded, hok]
      | true => simp [fetchNet_ok _ now hok, netFailsDecoded, hok]
  · intro h1 h2
    rw [fetch_below L R s now net true h1]
    cases net with
    | netThrow e => simp [netFailsDecoded] at h2
    | netResp r =>
      cases hok : r.ok with
      | false => simp [netFailsDecoded, hok] at h2
      | true => simp [fetchNet_ok _ now hok]

/-- C1 (amended) witness: the four clauses at concrete inputs. -/
theorem throttle_governor_amended_witness :
    (fetch 2 300 { initialState with apiErrorCount := 2 } 5 (.netResp resp500) true =
      ({ initialState with apiErrorCount := 3, apiLastSuccess := 5 }, none, false)) ∧
    (fetch 2 300 { initialState with apiErrorCount := 3, apiLastSuccess := 5 } 6
        (.netResp resp500) true =
      ({ initialState with apiErrorCount := 3, apiLastSuccess := 5 }, none, false)) ∧
    ((fetch 2 300 { initialState with apiErrorCount := 3 } 300000 (.netResp resp500) true).2.2 =
        true ∧
     (fetch 2 300 { initialState with apiErrorCount := 3 } 300000
        (.netResp resp500) true).1.apiErrorCount = 1) ∧
    ((fetch 2 300 initialState 7 (.netResp respOkPlain) true).2.2 = true ∧
     (fetch 2 300 initialState 7 (.netResp respOkPlain) true).1.apiErrorCount = 0) := by
  refine ⟨?_, ?_, ?_, ?_⟩
  · exact (throttle_governor_amended 2 300 { initialState with apiErrorCount := 2 } 5
      (.netResp resp500)).1 rfl
  · exact (throttle_governor_amended 2 300
      { initialState with apiErrorCount := 3, apiLastSuccess := 5 } 6
      (.netResp resp500)).2.1 (by decide) (by decide)
  · exact (throttle_governor_amended 2 300 { initialState with apiErrorCount := 3 } 300000
      (.netResp resp500)).2.2.1 (by decide) (by decide)
  · exact (throttle_governor_amended 2 300 initialState 7 (.netResp respOkPlain)).2.2.2
      (by decide) (by decide)

/-- C10: `isAllRtspConfigured` returns true exactly when the snapshot has
some camera with some channel whose RTSP flag is off — the negation of
what its name announces; with no snapshot (or no camera list) it returns
the JS `undefined`, a non-true value. -/
theorem isAllRtspConfigured_is_negation (s : ApiState) :
    isAllRtspConfigured s = some true ↔
      ∃ b cams, s.bootstrap = some b ∧ b.cameras = some cams ∧
        ∃ cam ∈ cams, ∃ chs, cam.channels = some chs ∧ ∃ ch ∈ chs, ch.isRtspEnabled = false := by
  unfold isAllRtspConfigured
  cases hb : s.bootstrap with
  | none => simp
  | some b =>
    cases hc : b.cameras with
    | none => simp [hc]
    | some cams => simp [hc, List.any_eq_true, jsSome_eq_true]

/-- Intended heartbeat behavior (the handler body with the receiver read
as the client): the timer is rearmed to a full silence window `I` on open
and on every ping; the firing handler would terminate the connection,
clearing the websocket handle and the configured flag; and a cleared
handle makes the listener eligible for reconnection on the next
`launchEventListener`.  The actual unbound registration never delivers
this behavior — see `heartbeat_misbound_listener_stays`. -/
theorem heartbeat_silence_window (I F L R now t : Nat) (s : ApiState) :
    (eventListenerStep I t s .wsOpen = { s with eventHeartbeatTimer := some (t + I * 1000) }) ∧
    (eventListenerStep I t s .wsPing = { s with eventHeartbeatTimer := some (t + I * 1000) }) ∧
    (∀ d, s.eventHeartbeatTimer = some d →
      eventListenerStep I d s .wsTimerFire =
        { s with eventHeartbeatTimer := none, eventListener := false,
                 eventListenerConfigured := false }) ∧
    (∀ env lg, s.eventListener = false → s.loggedIn = true →
      ¬ (s.loginAge + F * 1000 < now) →
      launchEventListener L R F now ⟨s, env, lg⟩ =
        (⟨{ s with eventListener := true }, env, lg⟩, true)) := by
  refine ⟨rfl, rfl, ?_, ?_⟩
  · intro d h
    simp [eventListenerStep, h]
  · intro env lg h1 h2 h3
    unfold launchEventListener
    rw [loginProtect_noop L R F now ⟨s, env, lg⟩ h2 h3]
    simp [h1]

/-- The intended-behavior clauses at concrete inputs. -/
theorem heartbeat_silence_window_witness :
    (eventListenerStep 100 7 { initialState with eventListener := true, eventListenerConfigured := true } .wsOpen =
      { initialState with eventListener := true, eventListenerConfigured := true, eventHeartbeatTimer := some 100007 }) ∧
    (eventListenerStep 100 100007
        { initialState with eventListener := true, eventListenerConfigured := true, eventHeartbeatTimer := some 100007 } .wsTimerFire =
      { initialState with eventHeartbeatTimer := none, eventListener := false, eventListenerConfigured := false }) ∧
    (launchEventListener 2 300 1800 5
        ⟨{ initialState with loggedIn := true, loginAge := 5 }, [], []⟩ =
      (⟨{ initialState with loggedIn := true, loginAge := 5, eventListener := true }, [], []⟩,
       true)) := by
  refine ⟨?_, ?_, ?_⟩
  · exact (heartbeat_silence_window 100 1800 2 300 5 7 _).1
  · exact (heartbeat_silence_window 100 1800 2 300 5 7
      { initialState with eventListener := true, eventListenerConfigured := true, eventHeartbeatTimer := some 100007 }).2.2.1 100007 rfl
  · exact (heartbeat_silence_window 100 1800 2 300 5 7
      { initialState with loggedIn := true, loginAge := 5 }).2.2.2 [] [] rfl rfl (by decide)

/-- C4: the mac-address diff of `refreshDevices`: a camera only in the new
list is notified as discovered exactly when it is managed; a camera only
in the old list is notified as removed; a camera whose mac appears in
both lists produces neither notification. -/
theorem refresh_diff_by_mac (oldList newList : List Camera) (c : Camera) :
    (c ∈ newList → (∀ o ∈ oldList, o.mac ≠ c.mac) →
      (c ∈ (diffDevices (some oldList) (some newList)).discovered ↔ c.isManaged = true)) ∧
    (c ∈ oldList → (∀ n ∈ newList, n.mac ≠ c.mac) →
      c ∈ (diffDevices (some oldList) (some newList)).removed) ∧
    ((∃ o ∈ oldList, o.mac = c.mac) → (∃ n ∈ newList, n.mac = c.mac) →
      c ∉ (diffDevices (some oldList) (some newList)).discovered ∧
      c ∉ (diffDevices (some oldList) (some newList)).removed) := by
  refine ⟨?_, ?_, ?_⟩
  · intro hn hold
    have hk : knownMac (some oldList) c.mac = false := by
      simp only [knownMac, jsSome, List.any_eq_false, beq_iff_eq]
      exact hold
    simp [diffDevices, List.mem_filter, hn, hk]
  · intro ho hnew
    have hk : knownMac (some newList) c.mac = false := by
      simp only [knownMac, jsSome, List.any_eq_false, beq_iff_eq]
      exact hnew
    simp [diffDevices, List.mem_filter, ho, hk]
  · rintro ⟨o, ho, hom⟩ ⟨n, hn, hnm⟩
    have hko : knownMac (some oldList) c.mac = true := by
      simp only [knownMac, jsSome, List.any_eq_true, beq_iff_eq]
      exact ⟨o, ho, hom⟩
    have hkn : knownMac (some newList) c.mac = true := by
      simp only [knownMac, jsSome, List.any_eq_true, beq_iff_eq]
      exact ⟨n, hn, hnm⟩
    constructor <;> intro hmem
    · simp [diffDevices, List.mem_filter, hko] at hmem
    · simp [diffDevices, List.mem_filter, hkn] at hmem

/-- C4 witness: previous cameras {A,B}, new cameras {B,C} with C managed:
C is discovered, A is removed, B is neither. -/
theorem refresh_diff_by_mac_witness :
    (camOf "C" true ∈ (diffDevices (some [camOf "A" true, camOf "B" true])
        (some [camOf "B" true, camOf "C" true])).discovered) ∧
    (camOf "A" true ∈ (diffDevices (some [camOf "A" true, camOf "B" true])
        (some [camOf "B" true, camOf "C" true])).removed) ∧
    (camOf "B" true ∉ (diffDevices (some [camOf "A" true, camOf "B" true])
        (some [camOf "B" true, camOf "C" true])).discovered ∧
     camOf "B" true ∉ (diffDevices (some [camOf "A" true, camOf "B" true])
        (some [camOf "B" true, camOf "C" true])).removed) := by
  refine ⟨?_, ?_, ?_⟩
  · exact ((refresh_diff_by_mac [camOf "A" true, camOf "B" true]
      [camOf "B" true, camOf "C" true] (camOf "C" true)).1 (by decide) (by decide)).mpr rfl
  · exact (refresh_diff_by_mac [camOf "A" true, camOf "B" true]
      [camOf "B" true, camOf "C" true] (camOf "A" true)).2.1 (by decide) (by decide)
  · exact (refresh_diff_by_mac [camOf "A" true, camOf "B" true]
      [camOf "B" true, camOf "C" true] (camOf "B" true)).2.2 (by decide) (by decide)

/-- C8: on a logged-in, non-stale admin session, `enableRtsp` applied to a
camera all of whose channels already have RTSP enabled returns the device
object unchanged with the whole context untouched: the network oracle and
the request log are exactly as before, i.e. zero network calls. -/
theorem enableRtsp_idempotent (L R F now : Nat) (c : Ctx) (device : Camera)
    (h1 : c.state.loggedIn = true) (h2 : ¬ (c.state.loginAge + F * 1000 < now))
    (h3 : c.state.isAdminUser = true) (h4 : device.modelKey = "camera")
    (h5 : ∀ ch ∈ device.channels.getD [], ch.isRtspEnabled = true) :
    enableRtsp L R F now c device = .ok (c, some (.deviceObj device)) := by
  have hch : jsSome device.channels (fun ch => !ch.isRtspEnabled) = false := by
    cases hcc : device.channels with
    | none => rfl
    | some chs =>
      simp only [jsSome, List.any_eq_false]
      intro ch hmem
      have := h5 ch (by rw [hcc]; exact hmem)
      simp [this]
  unfold enableRtsp
  rw [loginProtect_noop L R F now c h1 h2]
  simp [h3, h4, hch]

/-- C8 witness: the idempotent short-circuit on a concrete admin client
and a concrete fully enabled camera. -/
theorem enableRtsp_idempotent_witness :
    enableRtsp 2 300 1800 5 adminCtx allOnDevice = .ok (adminCtx, some (.deviceObj allOnDevice)) :=
  enableRtsp_idempotent 2 300 1800 5 adminCtx allOnDevice rfl (by decide) rfl rfl (by decide)

/-- C9: the code bug evaluated at the failing input.  On a logged-in admin
session, `enableRtsp` on a camera with a disabled channel whose PATCH
suffers a transport error (connection refused) throws a TypeError — the
`fetch` wrapper converts the transport error to a null response, and the
error-handling path then dereferences `response.status` on it — instead
of reporting the failure through its result value. -/
theorem enableRtsp_transport_error_throws :
    enableRtsp 2 300 1800 5 adminRefusedCtx offDevice =
      .error "TypeError: null has no property status" := by decide

/-- A well-formed permission line is processed without throwing, to the
claim-side admin predicate. -/
theorem permLineAdmin_wf (e : String) (h : permEntryWellFormed e = true) :
    permLineAdmin e = .ok (permEntryAdmin e) := by
  unfold permLineAdmin permEntryAdmin permEntryIsCamera permEntryHasWrite
  unfold permEntryWellFormed permEntryIsCamera at h
  cases hsp : jsSplit e ':' with
  | nil => simp
  | cons a rest =>
    rw [hsp] at h
    by_cases ha : a = "camera"
    · subst ha
      cases rest with
      | nil => simp at h
      | cons b rest2 => simp
    · have hb : (a == "camera") = false := by simp [ha]
      simp [ha, hb]

/-- On well-formed permission lists the scan loop computes exactly the
existence of a camera-write line. -/
theorem computeAdmin_wf (ps : List String) (h : ∀ e ∈ ps, permEntryWellFormed e = true) :
    computeAdmin ps = .ok (ps.any permEntryAdmin) := by
  induction ps with
  | nil => rfl
  | cons e rest ih =>
    have he := permLineAdmin_wf e (h e (by simp))
    rw [computeAdmin, he]
    cases ha : permEntryAdmin e with
    | true => simp [ha]
    | false => simp [ha, ih (fun x hx => h x (by simp [hx]))]

/-- C5 counterexample: a client whose previous snapshot made it admin
receives a snapshot whose user list does not contain the authenticated
user; the claim demands admin status false, but `checkAdminUserStatus`
returns early without touching `isAdminUser`, which stays true. -/
theorem admin_status_absent_user_cex :
    (staleAdminState.bootstrap.bind Bootstrap.users = some []) ∧
    checkAdminUserStatus staleAdminState false = .ok (staleAdminState, false) ∧
    staleAdminState.isAdminUser = true := ⟨rfl, rfl, rfl⟩

/-- C5 (amended): when the snapshot carries the authenticated user record
with permissions whose camera lines are all well formed (have a capability
field), `checkAdminUserStatus` recomputes `isAdminUser`, and the new value
is true exactly when some line has resource type camera and a capability
list containing write; when the snapshot, its user list, the user record
or its permissions are absent, the stored admin status is left unchanged
(so it is false only if it already was false) rather than being set to
false. -/
theorem admin_status_amended (s : ApiState) (fr : Bool) :
    (∀ b us u ps, s.bootstrap = some b → b.users = some us →
      us.find? (fun x => x.id == b.authUserId) = some u → u.allPermissions = some ps →
      (∀ e ∈ ps, permEntryWellFormed e = true) →
      checkAdminUserStatus s fr = .ok ({ s with isAdminUser := ps.any permEntryAdmin }, true) ∧
      (ps.any permEntryAdmin = true ↔
        ∃ e ∈ ps, permEntryIsCamera e = true ∧ permEntryHasWrite e = true)) ∧
    (s.bootstrap = none → checkAdminUserStatus s fr = .ok (s, false)) ∧
    (∀ b, s.bootstrap = some b → b.users = none → checkAdminUserStatus s fr = .ok (s, false)) ∧
    (∀ b us, s.bootstrap = some b → b.users = some us →
      us.find? (fun x => x.id == b.authUserId) = none →
      checkAdminUserStatus s fr = .ok (s, false)) ∧
    (∀ b us u, s.bootstrap = some b → b.users = some us →
      us.find? (fun x => x.id == b.authUserId) = some u → u.allPermissions = none →
      checkAdminUserStatus s fr = .ok (s, false)) := by
  refine ⟨?_, ?_, ?_, ?_, ?_⟩
  · intro b us u ps hb hu hf hp hwf
    constructor
    · simp only [checkAdminUserStatus, hb, hu, hf, hp, computeAdmin_wf ps hwf]
    · simp [List.any_eq_true, permEntryAdmin, Bool.and_eq_true]
  · intro hb
    simp only [checkAdminUserStatus, hb]
  · intro b hb hu
    simp only [checkAdminUserStatus, hb, hu]
  · intro b us hb hu hf
    simp only [checkAdminUserStatus, hb, hu, hf]
  · intro b us u hb hu hf hp
    simp only [checkAdminUserStatus, hb, hu, hf, hp]

/-- C5 (amended) witness: the two spec examples — a user whose camera
capability list contains write becomes admin, a read-only user does not. -/
theorem admin_status_amended_witness :
    checkAdminUserStatus writePermState false =
      .ok ({ writePermState with isAdminUser := true }, true) ∧
    checkAdminUserStatus readPermState false =
      .ok ({ readPermState with isAdminUser := false }, true) := by
  constructor
  · exact ((admin_status_amended writePermState false).1
      { cameras := some []
        users := some [{ id := "u", allPermissions := some ["camera:read,write:all"] }]
        authUserId := "u" }
      [{ id := "u", allPermissions := some ["camera:read,write:all"] }]
      { id := "u", allPermissions := some ["camera:read,write:all"] }
      ["camera:read,write:all"] rfl rfl (by decide) rfl (by decide)).1
  · exact ((admin_status_amended readPermState false).1
      { cameras := some []
        users := some [{ id := "u", allPermissions := some ["camera:read:all"] }]
        authUserId := "u" }
      [{ id := "u", allPermissions := some ["camera:read:all"] }]
      { id := "u", allPermissions := some ["camera:read:all"] }
      ["camera:read:all"] rfl rfl (by decide) rfl (by decide)).1

/-- The network layer only ever touches the two governor counters. -/
theorem fetchNet_pres (s : ApiState) (now : Nat) (net : NetResult) (d : Bool) :
    ∃ a b, (fetchNet s now net d).1 = { s with apiErrorCount := a, apiLastSuccess := b } := by
  unfold fetchNet
  cases net with
  | netThrow e => exact ⟨_, _, rfl⟩
  | netResp r =>
    dsimp only
    split
    · exact ⟨s.apiErrorCount, s.apiLastSuccess, rfl⟩
    · split
      · exact ⟨_, _, rfl⟩
      · split
        · exact ⟨_, _, rfl⟩
        · split
          · exact ⟨_, _, rfl⟩
          · exact ⟨_, _, rfl⟩

/-- The governor only ever touches the two governor counters. -/
theorem fetch_pres (L R : Nat) (s : ApiState) (now : Nat) (net : NetResult) (d : Bool) :
    ∃ a b, (fetch L R s now net d).1 = { s with apiErrorCount := a, apiLastSuccess := b } := by
  unfold fetch
  by_cases h1 : L ≤ s.apiErrorCount
  · rw [if_pos h1]
    by_cases h2 : s.apiErrorCount = L
    · rw [if_pos h2]
      exact ⟨_, _, rfl⟩
    · rw [if_neg h2]
      by_cases h3 : now < s.apiLastSuccess + R * 1000
      · rw [if_pos h3]
        exact ⟨s.apiErrorCount, s.apiLastSuccess, rfl⟩
      · rw [if_neg h3]
        obtain ⟨a, b, hf⟩ := fetchNet_pres { s with apiErrorCount := 0 } now net d
        exact ⟨a, b, by rw [hf]⟩
  · rw [if_neg h1]
    exact fetchNet_pres s now net d

/-- One wrapped call only ever touches the two governor counters of the
object state. -/
theorem doFetch_pres (L R now : Nat) (k : ReqKind) (d : Bool) (c : Ctx) :
    ∃ a b, ((doFetch L R now k d c).1).state =
      { c.state with apiErrorCount := a, apiLastSuccess := b } := by
  unfold doFetch
  obtain ⟨a, b, hf⟩ := fetch_pres L R c.state now (headNet c.env) d
  dsimp only
  split
  · exact ⟨a, b, hf⟩
  · exact ⟨a, b, hf⟩

/-- The port probe only ever touches the two governor counters. -/
theorem acquireTokenPort_pres (L R now : Nat) (c : Ctx) :
    ∃ a b, ((acquireTokenPort L R now c).1).state =
      { c.state with apiErrorCount := a, apiLastSuccess := b } := by
  unfold acquireTokenPort
  obtain ⟨a, b, hs⟩ := doFetch_pres L R now .probePort true c
  rcases hd : doFetch L R now .probePort true c with ⟨c1, r⟩
  rw [hd] at hs
  cases r with
  | none => exact ⟨a, b, hs⟩
  | some r =>
    dsimp only
    split
    · exact ⟨a, b, hs⟩
    · exact ⟨a, b, hs⟩

/-- Device detection leaves the session core (login state, snapshot,
admin flag, listener, camera list) untouched. -/
theorem acquireToken_pres (L R now : Nat) (c : Ctx) :
    ((acquireToken L R now c).1).state.loggedIn = c.state.loggedIn ∧
    ((acquireToken L R now c).1).state.loginAge = c.state.loginAge ∧
    ((acquireToken L R now c).1).state.bootstrap = c.state.bootstrap ∧
    ((acquireToken L R now c).1).state.isAdminUser = c.state.isAdminUser ∧
    ((acquireToken L R now c).1).state.eventListener = c.state.eventListener ∧
    ((acquireToken L R now c).1).state.Cameras = c.state.Cameras := by
  unfold acquireToken
  dsimp only
  split
  · exact ⟨rfl, rfl, rfl, rfl, rfl, rfl⟩
  · obtain ⟨a, b, hs⟩ := doFetch_pres L R now .probeRoot true c
    rcases hd : doFetch L R now .probeRoot true c with ⟨c1, r1⟩
    rw [hd] at hs
    have hport : ((acquireTokenPort L R now c1).1).state.loggedIn = c.state.loggedIn ∧
        ((acquireTokenPort L R now c1).1).state.loginAge = c.state.loginAge ∧
        ((acquireTokenPort L R now c1).1).state.bootstrap = c.state.bootstrap ∧
        ((acquireTokenPort L R now c1).1).state.isAdminUser = c.state.isAdminUser ∧
        ((acquireTokenPort L R now c1).1).state.eventListener = c.state.eventListener ∧
        ((acquireTokenPort L R now c1).1).state.Cameras = c.state.Cameras := by
      obtain ⟨a2, b2, hp⟩ := acquireTokenPort_pres L R now c1
      rw [hp, hs]
      exact ⟨rfl, rfl, rfl, rfl, rfl, rfl⟩
    cases r1 with
    | none => exact hport
    | some r =>
      dsimp only
      split
      · split
        · rw [hs]
          exact ⟨rfl, rfl, rfl, rfl, rfl, rfl⟩
        · exact hport
      · exact hport

/-- A successful `loginBearer` only swaps the headers of the candidate
session state in. -/
theorem loginBearer_true (c3 : Ctx) (s : ApiState) (r : Response) (c1 : Ctx)
    (h : loginBearer c3 s r = (c1, true)) :
    ∃ hs2, c1 = { c3 with state := { s with headers := hs2 } } := by
  unfold loginBearer at h
  rcases hj : jsStr (headersGet r.headers "Authorization") with _ | tok
  · rw [hj] at h
    simp at h
  · rw [hj] at h
    injection h with h1 h2
    exact ⟨_, h1.symm⟩

/-- A failed `loginBearer` clears all credentials. -/
theorem loginBearer_false (c3 : Ctx) (s : ApiState) (r : Response) (c1 : Ctx)
    (h : loginBearer c3 s r = (c1, false)) :
    c1 = { c3 with state := clearLoginCredentials s } := by
  unfold loginBearer at h
  rcases hj : jsStr (headersGet r.headers "Authorization") with _ | tok
  · rw [hj] at h
    injection h with h1 h2
    exact h1.symm
  · rw [hj] at h
    simp at h

/-- A successful full login marks the session logged in at time `now` and
leaves snapshot, admin flag, listener and camera list untouched. -/
theorem loginProtectBody_true (L R now : Nat) (c c1 : Ctx)
    (h : loginProtectBody L R now c = (c1, true)) :
    c1.state.loggedIn = true ∧ c1.state.loginAge = now ∧
    c1.state.bootstrap = c.state.bootstrap ∧ c1.state.isAdminUser = c.state.isAdminUser ∧
    c1.state.eventListener = c.state.eventListener ∧ c1.state.Cameras = c.state.Cameras := by
  unfold loginProtectBody at h
  have hA := acquireToken_pres L R now c
  rcases hAc : acquireToken L R now c with ⟨c2, bA⟩
  rw [hAc] at h hA
  cases bA with
  | false => simp at h
  | true =>
    dsimp only at h
    have hD := doFetch_pres L R now .auth true c2
    rcases hDf : doFetch L R now .auth true c2 with ⟨c3, resp⟩
    rw [hDf] at h hD
    dsimp only at h
    obtain ⟨a, b, hDs⟩ := hD
    have hc3 : c3.state.bootstrap = c.state.bootstrap ∧
        c3.state.isAdminUser = c.state.isAdminUser ∧
        c3.state.eventListener = c.state.eventListener ∧
        c3.state.Cameras = c.state.Cameras := by
      refine ⟨?_, ?_, ?_, ?_⟩ <;> rw [show c3.state = _ from hDs]
      · exact hA.2.2.1
      · exact hA.2.2.2.1
      · exact hA.2.2.2.2.1
      · exact hA.2.2.2.2.2
    have key : ∀ (hs2 : List (String × String)),
        (({ c3 with state := { { c3.state with loggedIn := true, loginAge := now } with
            headers := hs2 } } : Ctx).state.loggedIn = true ∧
         ({ c3 with state := { { c3.state with loggedIn := true, loginAge := now } with
            headers := hs2 } } : Ctx).state.loginAge = now ∧
         ({ c3 with state := { { c3.state with loggedIn := true, loginAge := now } with
            headers := hs2 } } : Ctx).state.bootstrap = c.state.bootstrap ∧
         ({ c3 with state := { { c3.state with loggedIn := true, loginAge := now } with
            headers := hs2 } } : Ctx).state.isAdminUser = c.state.isAdminUser ∧
         ({ c3 with state := { { c3.state with loggedIn := true, loginAge := now } with
            headers := hs2 } } : Ctx).state.eventListener = c.state.eventListener ∧
         ({ c3 with state := { { c3.state with loggedIn := true, loginAge := now } with
            headers := hs2 } } : Ctx).state.Cameras = c.state.Cameras) := by
      intro hs2
      exact ⟨rfl, rfl, hc3.1, hc3.2.1, hc3.2.2.1, hc3.2.2.2⟩
    cases resp with
    | none => simp at h
    | some r =>
      dsimp only at h
      by_cases hok : r.ok = true
      · rw [if_neg (by simp [hok])] at h
        rcases hj1 : jsStr (headersGet r.headers "X-CSRF-Token") with _ | tok <;> rw [hj1] at h
        · obtain ⟨hs2, hc⟩ := loginBearer_true _ _ _ _ h
          rw [hc]
          exact key hs2
        · rcases hj2 : jsStr (headersGet r.headers "Set-Cookie") with _ | cook <;> rw [hj2] at h
          · obtain ⟨hs2, hc⟩ := loginBearer_true _ _ _ _ h
            rw [hc]
            exact key hs2
          · dsimp only at h
            by_cases hhh : headersHas c3.state.headers "X-CSRF-Token" = true
            · rw [if_pos hhh] at h
              injection h with h1 h2
              rw [← h1]
              exact key _
            · rw [if_neg hhh] at h
              obtain ⟨hs2, hc⟩ := loginBearer_true _ _ _ _ h
              rw [hc]
              exact key hs2
      · rw [if_pos (by simp [hok])] at h
        simp at h

/-- A failed full login leaves the snapshot either untouched or fully
cleared (when the login response carried neither credential shape). -/
theorem loginProtectBody_false (L R now : Nat) (c c1 : Ctx)
    (h : loginProtectBody L R now c = (c1, false)) :
    c1.state.bootstrap = c.state.bootstrap ∨ c1.state.bootstrap = none := by
  unfold loginProtectBody at h
  have hA := acquireToken_pres L R now c
  rcases hAc : acquireToken L R now c with ⟨c2, bA⟩
  rw [hAc] at h hA
  cases bA with
  | true =>
    dsimp only at h
    have hD := doFetch_pres L R now .auth true c2
    rcases hDf : doFetch L R now .auth true c2 with ⟨c3, resp⟩
    rw [hDf] at h hD
    dsimp only at h
    obtain ⟨a, b, hDs⟩ := hD
    have hc3 : c3.state.bootstrap = c.state.bootstrap := by
      rw [show c3.state = _ from hDs]
      exact hA.2.2.1
    cases resp with
    | none =>
      dsimp only at h
      injection h with h1 h2
      rw [← h1]
      exact .inl hc3
    | some r =>
      dsimp only at h
      by_cases hok : r.ok = true
      · rw [if_neg (by simp [hok])] at h
        rcases hj1 : jsStr (headersGet r.headers "X-CSRF-Token") with _ | tok <;> rw [hj1] at h
        · rw [loginBearer_false _ _ _ _ h]
          exact .inr rfl
        · rcases hj2 : jsStr (headersGet r.headers "Set-Cookie") with _ | cook <;> rw [hj2] at h
          · rw [loginBearer_false _ _ _ _ h]
            exact .inr rfl
          · dsimp only at h
            by_cases hhh : headersHas c3.state.headers "X-CSRF-Token" = true
            · rw [if_pos hhh] at h
              simp at h
            · rw [if_neg hhh] at h
              rw [loginBearer_false _ _ _ _ h]
              exact .inr rfl
      · rw [if_pos (by simp [hok])] at h
        injection h with h1 h2
        rw [← h1]
        exact .inl hc3
  | false =>
    dsimp only at h
    injection h with h1 h2
    rw [← h1]
    exact .inl hA.2.2.1

/-- A successful `loginProtect` yields a logged-in, non-stale session and
leaves snapshot, admin flag, listener and camera list untouched. -/
theorem loginProtect_true (L R F now : Nat) (c c1 : Ctx)
    (h : loginProtect L R F now c = (c1, true)) :
    c1.state.loggedIn = true ∧ ¬ (c1.state.loginAge + F * 1000 < now) ∧
    c1.state.bootstrap = c.state.bootstrap ∧ c1.state.isAdminUser = c.state.isAdminUser ∧
    c1.state.eventListener = c.state.eventListener ∧ c1.state.Cameras = c.state.Cameras := by
  unfold loginProtect at h
  dsimp only at h
  by_cases hst : c.state.loginAge + F * 1000 < now
  · rw [if_pos hst] at h
    simp only [Bool.false_eq_true, if_false] at h
    obtain ⟨h1, h2, h3, h4, h5, h6⟩ := loginProtectBody_true L R now _ _ h
    exact ⟨h1, by omega, h3, h4, h5, h6⟩
  · rw [if_neg hst] at h
    by_cases hli : c.state.loggedIn = true
    · rw [if_pos hli] at h
      injection h with h1 h2
      rw [← h1]
      exact ⟨hli, hst, rfl, rfl, rfl, rfl⟩
    · rw [if_neg hli] at h
      obtain ⟨h1, h2, h3, h4, h5, h6⟩ := loginProtectBody_true L R now _ _ h
      exact ⟨h1, by omega, h3, h4, h5, h6⟩

/-- A failed `loginProtect` leaves the snapshot untouched or cleared. -/
theorem loginProtect_false (L R F now : Nat) (c c1 : Ctx)
    (h : loginProtect L R F now c = (c1, false)) :
    c1.state.bootstrap = c.state.bootstrap ∨ c1.state.bootstrap = none := by
  unfold loginProtect at h
  dsimp only at h
  by_cases hst : c.state.loginAge + F * 1000 < now
  · rw [if_pos hst] at h
    simp only [Bool.false_eq_true, if_false] at h
    rcases loginProtectBody_false L R now _ _ h with h1 | h1
    · exact .inl h1
    · exact .inr h1
  · rw [if_neg hst] at h
    by_cases hli : c.state.loggedIn = true
    · rw [if_pos hli] at h
      simp at h
    · rw [if_neg hli] at h
      exact loginProtectBody_false L R now _ _ h

/-- `checkAdminUserStatus` can only update the admin flag of the state. -/
theorem checkAdminUserStatus_shape (s : ApiState) (f : Bool) (t : ApiState) (bb : Bool)
    (h : checkAdminUserStatus s f = .ok (t, bb)) :
    ∃ adm, t = { s with isAdminUser := adm } := by
  have base : ∀ (h2 : Except.ok (ε := String) ((s, false) : ApiState × Bool) = .ok (t, bb)),
      ∃ adm, t = { s with isAdminUser := adm } := by
    intro h2
    simp only [Except.ok.injEq, Prod.mk.injEq] at h2
    exact ⟨s.isAdminUser, by rw [← h2.1]⟩
  rcases hb : s.bootstrap with _ | b
  · simp only [checkAdminUserStatus, hb] at h
    simpa [hb] using base h
  · rcases hu : b.users with _ | us
    · simp only [checkAdminUserStatus, hb, hu] at h
      simpa [hb] using base h
    · rcases hf : us.find? (fun u => u.id == b.authUserId) with _ | u
      · simp only [checkAdminUserStatus, hb, hu, hf] at h
        simpa [hb] using base h
      · rcases hp : u.allPermissions with _ | ps
        · simp only [checkAdminUserStatus, hb, hu, hf, hp] at h
          simpa [hb] using base h
        · rcases hca : computeAdmin ps with msg | adm
          · simp only [checkAdminUserStatus, hb, hu, hf, hp, hca] at h
            exact Except.noConfusion h
          · simp only [checkAdminUserStatus, hb, hu, hf, hp, hca, Except.ok.injEq,
              Prod.mk.injEq] at h
            exact ⟨adm, h.1.symm⟩

/-- With a valid session `launchEventListener` reports success and leaves
the snapshot untouched. -/
theorem launchEventListener_snapshot (L R F now : Nat) (c : Ctx)
    (h1 : c.state.loggedIn = true) (h2 : ¬ (c.state.loginAge + F * 1000 < now)) :
    (launchEventListener L R F now c).2 = true ∧
    ((launchEventListener L R F now c).1).state.bootstrap = c.state.bootstrap := by
  unfold launchEventListener
  rw [loginProtect_noop L R F now c h1 h2]
  dsimp only
  split
  · exact ⟨rfl, rfl⟩
  · exact ⟨rfl, rfl⟩

/-- Snapshot discipline of `bootstrapProtect`: on a failed run the stored
snapshot is either cleared or exactly the previous one; on a successful
run a snapshot is present. -/
theorem bootstrapProtect_snapshot (L R F now : Nat) (c c1 : Ctx) (ok : Bool)
    (h : bootstrapProtect L R F now c = .ok (c1, ok)) :
    (ok = false → c1.state.bootstrap = none ∨ c1.state.bootstrap = c.state.bootstrap) ∧
    (ok = true → c1.state.bootstrap.isSome = true) := by
  unfold bootstrapProtect at h
  rcases hL : loginProtect L R F now c with ⟨cL, bL⟩
  rw [hL] at h
  cases bL with
  | false =>
    dsimp only at h
    simp only [Except.ok.injEq, Prod.mk.injEq] at h
    constructor
    · intro _
      rcases loginProtect_false L R F now c cL hL with hp | hp
      · exact .inr (by rw [← h.1]; exact hp)
      · exact .inl (by rw [← h.1]; exact hp)
    · intro hok1
      rw [← h.2] at hok1
      exact absurd hok1 (by simp)
  | true =>
    dsimp only at h
    obtain ⟨hLl, hLs, hLb, _, _, _⟩ := loginProtect_true L R F now c cL hL
    have hD := doFetch_pres L R now .bootstrapReq true cL
    rcases hDf : doFetch L R now .bootstrapReq true cL with ⟨cD, rD⟩
    rw [hDf] at h hD
    dsimp only at h
    obtain ⟨a, b, hDs⟩ := hD
    have hDb : cD.state.bootstrap = cL.state.bootstrap := by
      rw [show cD.state = _ from hDs]
    have hDl : cD.state.loggedIn = true := by
      rw [show cD.state = _ from hDs]
      exact hLl
    have hDa : ¬ (cD.state.loginAge + F * 1000 < now) := by
      rw [show cD.state = _ from hDs]
      exact hLs
    have clearCase : ∀ (h2 : Except.ok (ε := String)
          (({ cD with state := clearLoginCredentials cD.state }, false) : Ctx × Bool) =
          .ok (c1, ok)),
        (ok = false → c1.state.bootstrap = none ∨ c1.state.bootstrap = c.state.bootstrap) ∧
        (ok = true → c1.state.bootstrap.isSome = true) := by
      intro h2
      simp only [Except.ok.injEq, Prod.mk.injEq] at h2
      constructor
      · intro _
        exact .inl (by rw [← h2.1]; rfl)
      · intro hok1
        rw [← h2.2] at hok1
        exact absurd hok1 (by simp)
    cases rD with
    | none => exact clearCase h
    | some r =>
      dsimp only at h
      by_cases hok2 : r.ok = true
      · rw [if_neg (by simp [hok2])] at h
        rcases hj : jsonOf r.body with _ | body
        · rw [hj] at h
          dsimp only at h
          exact clearCase h
        · rw [hj] at h
          cases body with
          | cameraData cc =>
            dsimp only at h
            exact clearCase h
          | otherData =>
            dsimp only at h
            exact clearCase h
          | bootstrapData bs =>
            dsimp only at h
            by_cases hcam : bs.cameras.isSome = true
            · rw [if_pos hcam] at h
              rcases hCA : checkAdminUserStatus { cD.state with bootstrap := some bs }
                  cD.state.bootstrap.isNone with msg | s4pair
              · rw [hCA] at h
                exact Except.noConfusion h
              · rcases s4pair with ⟨s4, b4⟩
                rw [hCA] at h
                dsimp only at h
                obtain ⟨adm, hs4⟩ := checkAdminUserStatus_shape _ _ _ _ hCA
                have hs4b : s4.bootstrap = some bs := by rw [hs4]
                have hs4l : s4.loggedIn = true := by
                  rw [hs4]
                  exact hDl
                have hs4a : ¬ (s4.loginAge + F * 1000 < now) := by
                  rw [hs4]
                  exact hDa
                by_cases hos : s4.isUnifiOs = true
                · rw [if_pos hos] at h
                  have hls := launchEventListener_snapshot L R F now
                    { cD with state := s4 } hs4l hs4a
                  rcases hlp : launchEventListener L R F now { cD with state := s4 }
                    with ⟨cE, bE⟩
                  rw [hlp] at h hls
                  simp only [Except.ok.injEq, Prod.mk.injEq] at h
                  have hbe : bE = true := hls.1
                  have hcb : cE.state.bootstrap = s4.bootstrap := hls.2
                  constructor
                  · intro hok1
                    rw [← h.2, hbe] at hok1
                    exact absurd hok1 (by simp)
                  · intro _
                    rw [← h.1, hcb, hs4b]
                    rfl
                · rw [if_neg hos] at h
                  simp only [Except.ok.injEq, Prod.mk.injEq] at h
                  constructor
                  · intro hok1
                    rw [← h.2] at hok1
                    exact absurd hok1 (by simp)
                  · intro _
                    rw [← h.1]
                    rw [show ({ cD with state := s4 } : Ctx).state.bootstrap = s4.bootstrap
                      from rfl]
                    rw [hs4b]
                    rfl
            · rw [if_neg hcam] at h
              exact clearCase h
      · rw [if_pos (by simp [hok2])] at h
        exact clearCase h

/-- C2 counterexample: a logged-in client holding a snapshot receives a
500 from the bootstrap endpoint.  The claim demands that the previously
stored snapshot remain intact, but `bootstrapProtect` runs
`clearLoginCredentials`, which nulls the stored snapshot. -/
theorem bootstrap_failure_clears_snapshot :
    snapshotCtx.state.bootstrap = some bootSnap ∧
    (bootstrapProtect 2 300 1800 5 snapshotCtx).toOption.map
      (fun p => (p.1.state.bootstrap, p.2)) = some (none, false) := ⟨rfl, rfl⟩

/-- C2 (amended): the stored snapshot is replaced with fresh data only
after the full fetch and parse succeeds (a successful run always leaves a
snapshot in place); on a failed run the snapshot is never partially
mutated or replaced — it is either cleared to null (non-OK response,
malformed body, body without a camera list: all run the credential reset)
or, when the failure happened during login, left exactly as it was. -/
theorem bootstrap_snapshot_amended (L R F now : Nat) (c : Ctx) :
    (∀ c1, bootstrapProtect L R F now c = .ok (c1, false) →
      c1.state.bootstrap = none ∨ c1.state.bootstrap = c.state.bootstrap) ∧
    (∀ c1, bootstrapProtect L R F now c = .ok (c1, true) →
      c1.state.bootstrap.isSome = true) := by
  constructor
  · intro c1 h
    exact (bootstrapProtect_snapshot L R F now c c1 false h).1 rfl
  · intro c1 h
    exact (bootstrapProtect_snapshot L R F now c c1 true h).2 rfl

/-- C2 (amended) witness: the failed-run clause applied to the concrete
500-response scenario. -/
theorem bootstrap_snapshot_amended_witness :
    (clearLoginCredentials { snapshotCtx.state with apiErrorCount := 1 }).bootstrap = none ∨
    (clearLoginCredentials { snapshotCtx.state with apiErrorCount := 1 }).bootstrap =
      snapshotCtx.state.bootstrap :=
  (bootstrap_snapshot_amended 2 300 1800 5 snapshotCtx).1
    ⟨clearLoginCredentials { snapshotCtx.state with apiErrorCount := 1 }, [], [.bootstrapReq]⟩
    (by decide)

/-- Computed run of `acquireToken` when the bare-address probe is OK and
carries a truthy CSRF token: UniFi OS is recorded and the keepalive agent
installed. -/
theorem acquireToken_familyA (L R now : Nat) (c : Ctx) (r : Response) (env2 : List NetResult)
    (tok : String) (hL : 0 < L) (hcnt : c.state.apiErrorCount = 0)
    (hli : c.state.loggedIn = false)
    (hh1 : headersHas c.state.headers "X-CSRF-Token" = false)
    (hh2 : headersHas c.state.headers "Authorization" = false)
    (henv : c.env = .netResp r :: env2) (hok : r.ok = true)
    (htok : jsStr (headersGet r.headers "X-CSRF-Token") = some tok) :
    acquireToken L R now c =
      ({ state := { c.state with
            apiLastSuccess := now
            apiErrorCount := 0
            headers := headersSet c.state.headers "X-CSRF-Token" tok
            isUnifiOs := true
            httpsAgent := { keepAlive := true } }
         env := env2
         log := c.log ++ [.probeRoot] }, true) := by
  unfold acquireToken
  rw [if_neg (by simp [hli, hh1, hh2])]
  rw [doFetch_run L R now .probeRoot true c (.netResp r) env2 henv (by omega)]
  rw [fetchNet_ok c.state now hok]
  dsimp only
  rw [if_pos hok, htok]

/-- Computed step of `acquireToken` when the bare-address probe yields no
usable token: control falls through to the port probe, with the error
count at most 1 and headers, login state, family flag and agent intact. -/
theorem acquireToken_noToken_step (L R now : Nat) (c : Ctx) (n1 : NetResult)
    (env2 : List NetResult) (hcnt : c.state.apiErrorCount = 0) (hL : 0 < L)
    (hli : c.state.loggedIn = false)
    (hh1 : headersHas c.state.headers "X-CSRF-Token" = false)
    (hh2 : headersHas c.state.headers "Authorization" = false)
    (henv : c.env = n1 :: env2) (hnt : probeNoToken n1 = true) :
    ∃ s1, acquireToken L R now c =
        acquireTokenPort L R now { state := s1, env := env2, log := c.log ++ [.probeRoot] } ∧
      s1.apiErrorCount ≤ 1 ∧ s1.headers = c.state.headers ∧
      s1.loggedIn = c.state.loggedIn ∧ s1.isUnifiOs = c.state.isUnifiOs ∧
      s1.httpsAgent = c.state.httpsAgent := by
  unfold acquireToken
  rw [if_neg (by simp [hli, hh1, hh2])]
  rw [doFetch_run L R now .probeRoot true c n1 env2 henv (by omega)]
  cases n1 with
  | netThrow e =>
    rw [fetchNet_throw]
    dsimp only
    exact ⟨_, rfl, by simp [hcnt], rfl, rfl, rfl, rfl⟩
  | netResp r =>
    cases hok : r.ok with
    | false =>
      rw [fetchNet_bad c.state now hok]
      dsimp only
      exact ⟨_, rfl, by simp [hcnt], rfl, rfl, rfl, rfl⟩
    | true =>
      rw [fetchNet_ok c.state now hok]
      dsimp only
      rw [if_pos hok]
      have hjn : jsStr (headersGet r.headers "X-CSRF-Token") = none := by
        unfold probeNoToken at hnt
        simp [hok] at hnt
        exact hnt
      rw [hjn]
      exact ⟨_, rfl, by simp, rfl, rfl, rfl, rfl⟩

/-- Computed run of the port probe when the network answers OK. -/
theorem acquireTokenPort_ok (L R now : Nat) (c : Ctx) (r2 : Response) (env2 : List NetResult)
    (henv : c.env = .netResp r2 :: env2) (hcnt : c.state.apiErrorCount < L)
    (hok : r2.ok = true) :
    acquireTokenPort L R now c =
      ({ state := { c.state with apiLastSuccess := now, apiErrorCount := 0 }
         env := env2
         log := c.log ++ [.probePort] }, true) := by
  unfold acquireTokenPort
  rw [doFetch_run L R now .probePort true c (.netResp r2) env2 henv hcnt,
    fetchNet_ok c.state now hok]
  dsimp only
  rw [if_pos hok]

/-- Computed run of the port probe when the network fails it. -/
theorem acquireTokenPort_fail (L R now : Nat) (c : Ctx) (n2 : NetResult) (env2 : List NetResult)
    (henv : c.env = n2 :: env2) (hcnt : c.state.apiErrorCount < L)
    (hfail : netFailsDecoded n2 = true) :
    acquireTokenPort L R now c =
      ({ state := { c.state with apiErrorCount := c.state.apiErrorCount + 1 }
         env := env2
         log := c.log ++ [.probePort] }, false) := by
  unfold acquireTokenPort
  rw [doFetch_run L R now .probePort true c n2 env2 henv hcnt]
  cases n2 with
  | netThrow e =>
    rw [fetchNet_throw]
  | netResp r =>
    have hok : r.ok = false := by
      unfold netFailsDecoded at hfail
      simpa using hfail
    rw [fetchNet_bad c.state now hok]

/-- C7: device-type detection.  From a pre-detection state (not logged in,
no token headers, clean governor): an OK bare-address probe carrying a
truthy CSRF-token header resolves the family to UniFi OS and enables the
keepalive agent; a probe without a usable token followed by an OK
alternate-port (7443) probe resolves to the legacy family (UniFi OS stays
false, agent untouched); and if both probes fail, detection reports
failure with headers, login state and family flag untouched, so a later
retry probes again. -/
theorem device_type_detection (L R now : Nat) (c : Ctx)
    (hL : 2 ≤ L) (hcnt : c.state.apiErrorCount = 0) (hli : c.state.loggedIn = false)
    (hh1 : headersHas c.state.headers "X-CSRF-Token" = false)
    (hh2 : headersHas c.state.headers "Authorization" = false) :
    (∀ r env2 tok, c.env = .netResp r :: env2 → r.ok = true →
      jsStr (headersGet r.headers "X-CSRF-Token") = some tok →
      (acquireToken L R now c).2 = true ∧
      ((acquireToken L R now c).1).state.isUnifiOs = true ∧
      ((acquireToken L R now c).1).state.httpsAgent.keepAlive = true ∧
      headersHas ((acquireToken L R now c).1).state.headers "X-CSRF-Token" = true ∧
      ((acquireToken L R now c).1).log = c.log ++ [.probeRoot]) ∧
    (∀ n1 r2 env2, c.env = n1 :: .netResp r2 :: env2 → probeNoToken n1 = true →
      r2.ok = true →
      (acquireToken L R now c).2 = true ∧
      ((acquireToken L R now c).1).state.isUnifiOs = c.state.isUnifiOs ∧
      ((acquireToken L R now c).1).state.httpsAgent = c.state.httpsAgent ∧
      ((acquireToken L R now c).1).log = c.log ++ [.probeRoot, .probePort]) ∧
    (∀ n1 n2 env2, c.env = n1 :: n2 :: env2 → probeNoToken n1 = true →
      netFailsDecoded n2 = true →
      (acquireToken L R now c).2 = false ∧
      ((acquireToken L R now c).1).state.headers = c.state.headers ∧
      ((acquireToken L R now c).1).state.loggedIn = false ∧
      ((acquireToken L R now c).1).state.isUnifiOs = c.state.isUnifiOs) := by
  refine ⟨?_, ?_, ?_⟩
  · intro r env2 tok henv hok htok
    rw [acquireToken_familyA L R now c r env2 tok (by omega) hcnt hli hh1 hh2 henv hok htok]
    exact ⟨rfl, rfl, rfl, headersHas_set_self _ _ _, rfl⟩
  · intro n1 r2 env2 henv hnt hok2
    obtain ⟨s1, heq, hle, hhd, hlg, hos1, hag1⟩ :=
      acquireToken_noToken_step L R now c n1 (.netResp r2 :: env2) hcnt (by omega)
        hli hh1 hh2 henv hnt
    rw [heq, acquireTokenPort_ok L R now _ r2 env2 rfl (by simpa using by omega) hok2]
    refine ⟨rfl, ?_, ?_, ?_⟩
    · exact hos1
    · exact hag1
    · simp
  · intro n1 n2 env2 henv hnt hfail
    obtain ⟨s1, heq, hle, hhd, hlg, hos1, hag1⟩ :=
      acquireToken_noToken_step L R now c n1 (n2 :: env2) hcnt (by omega) hli hh1 hh2 henv hnt
    rw [heq, acquireTokenPort_fail L R now _ n2 env2 rfl (by simpa using by omega) hfail]
    refine ⟨rfl, ?_, ?_, ?_⟩
    · exact hhd
    · rw [show s1.loggedIn = c.state.loggedIn from hlg]
      exact hli
    · exact hos1

/-- C7 witness: the three detection outcomes at concrete inputs. -/
theorem device_type_detection_witness :
    ((acquireToken 2 300 5 ⟨initialState, [.netResp probeResp], []⟩).2 = true ∧
     ((acquireToken 2 300 5 ⟨initialState, [.netResp probeResp], []⟩).1).state.isUnifiOs =
       true ∧
     ((acquireToken 2 300 5
        ⟨initialState, [.netResp probeResp], []⟩).1).state.httpsAgent.keepAlive = true) ∧
    ((acquireToken 2 300 5
        ⟨initialState, [.netResp resp500, .netResp respOkPlain], []⟩).2 = true ∧
     ((acquireToken 2 300 5
        ⟨initialState, [.netResp resp500, .netResp respOkPlain], []⟩).1).state.isUnifiOs =
       initialState.isUnifiOs) ∧
    ((acquireToken 2 300 5
        ⟨initialState, [.netThrow "ECONNREFUSED", .netThrow "ECONNREFUSED"], []⟩).2 = false ∧
     ((acquireToken 2 300 5
        ⟨initialState,
          [.netThrow "ECONNREFUSED", .netThrow "ECONNREFUSED"], []⟩).1).state.headers =
       initialState.headers) := by
  refine ⟨?_, ?_, ?_⟩
  · have h := (device_type_detection 2 300 5 ⟨initialState, [.netResp probeResp], []⟩
      (by omega) rfl rfl (by decide) (by decide)).1 probeResp [] "tokenA" rfl (by decide)
      (by decide)
    exact ⟨h.1, h.2.1, h.2.2.1⟩
  · have h := (device_type_detection 2 300 5
      ⟨initialState, [.netResp resp500, .netResp respOkPlain], []⟩
      (by omega) rfl rfl (by decide) (by decide)).2.1 (.netResp resp500) respOkPlain []
      rfl (by decide) (by decide)
    exact ⟨h.1, h.2.1⟩
  · have h := (device_type_detection 2 300 5
      ⟨initialState, [.netThrow "ECONNREFUSED", .netThrow "ECONNREFUSED"], []⟩
      (by omega) rfl rfl (by decide) (by decide)).2.2 (.netThrow "ECONNREFUSED")
      (.netThrow "ECONNREFUSED") [] rfl (by decide) (by decide)
    exact ⟨h.1, h.2.1⟩

/-- Computed run of the full login sequence against a cooperative UniFi OS
controller: root probe with CSRF token, then the credential POST answered
with a rotated token and a cookie. -/
theorem loginProtectBody_run (L R now : Nat) (c : Ctx) (r1 r2 : Response)
    (rest : List NetResult) (tok tok2 cook : String) (hL : 2 ≤ L)
    (hcnt : c.state.apiErrorCount = 0) (hli : c.state.loggedIn = false)
    (hh1 : headersHas c.state.headers "X-CSRF-Token" = false)
    (hh2 : headersHas c.state.headers "Authorization" = false)
    (henv : c.env = .netResp r1 :: .netResp r2 :: rest)
    (hok1 : r1.ok = true) (htok : jsStr (headersGet r1.headers "X-CSRF-Token") = some tok)
    (hok2 : r2.ok = true) (htok2 : jsStr (headersGet r2.headers "X-CSRF-Token") = some tok2)
    (hcook : jsStr (headersGet r2.headers "Set-Cookie") = some cook) :
    loginProtectBody L R now c =
      ({ state := { c.state with
            apiLastSuccess := now
            apiErrorCount := 0
            headers := headersSet (headersSet (headersSet c.state.headers "X-CSRF-Token" tok)
              "Cookie" cook) "X-CSRF-Token" tok2
            isUnifiOs := true
            httpsAgent := { keepAlive := true }
            loggedIn := true
            loginAge := now }
         env := rest
         log := c.log ++ [.probeRoot, .auth] }, true) := by
  unfold loginProtectBody
  rw [acquireToken_familyA L R now c r1 (.netResp r2 :: rest) tok
    (Nat.lt_of_lt_of_le Nat.zero_lt_two hL) hcnt hli hh1 hh2 henv hok1 htok]
  dsimp only
  rw [doFetch_run L R now .auth true _ (.netResp r2) rest rfl
    (by exact Nat.lt_of_lt_of_le Nat.zero_lt_two hL)]
  rw [fetchNet_ok _ now hok2]
  dsimp only
  rw [if_neg (by simp [hok2]), htok2, hcook]
  dsimp only
  rw [if_pos (headersHas_set_self _ _ _)]
  simp [List.append_assoc]

/-- C3: login lifecycle.  While authenticated and within the refresh
interval, `loginProtect` is a strict no-op (no network contact at all), so
two immediate consecutive calls against a fresh client perform exactly one
authentication round trip; and once the refresh interval has elapsed a
call re-authenticates over the network (the auth POST is issued again)
even though the session was authenticated. -/
theorem login_idempotence_and_renewal (L R F now : Nat) (c : Ctx) :
    (c.state.loggedIn = true → ¬ (c.state.loginAge + F * 1000 < now) →
      loginProtect L R F now c = (c, true)) ∧
    (∀ r1 r2 rest tok tok2 cook, 2 ≤ L → c.state.apiErrorCount = 0 →
      c.state.loggedIn = false → c.state.headers = initHeaders →
      ¬ (c.state.loginAge + F * 1000 < now) →
      c.env = .netResp r1 :: .netResp r2 :: rest →
      r1.ok = true → jsStr (headersGet r1.headers "X-CSRF-Token") = some tok →
      r2.ok = true → jsStr (headersGet r2.headers "X-CSRF-Token") = some tok2 →
      jsStr (headersGet r2.headers "Set-Cookie") = some cook →
      ∃ c1, loginProtect L R F now c = (c1, true) ∧
        c1.log = c.log ++ [.probeRoot, .auth] ∧
        c1.log.count .auth = c.log.count .auth + 1 ∧
        loginProtect L R F now c1 = (c1, true)) ∧
    (∀ r1 r2 rest tok tok2 cook, 2 ≤ L → c.state.apiErrorCount = 0 →
      c.state.loggedIn = true → c.state.loginAge + F * 1000 < now →
      c.env = .netResp r1 :: .netResp r2 :: rest →
      r1.ok = true → jsStr (headersGet r1.headers "X-CSRF-Token") = some tok →
      r2.ok = true → jsStr (headersGet r2.headers "X-CSRF-Token") = some tok2 →
      jsStr (headersGet r2.headers "Set-Cookie") = some cook →
      ∃ c1, loginProtect L R F now c = (c1, true) ∧
        c1.log = c.log ++ [.probeRoot, .auth] ∧
        c1.state.loggedIn = true ∧ c1.state.loginAge = now) := by
  refine ⟨?_, ?_, ?_⟩
  · exact loginProtect_noop L R F now c
  · intro r1 r2 rest tok tok2 cook hL hcnt hli hhd hns henv hok1 htok hok2 htok2 hcook
    have hbody := loginProtectBody_run L R now c r1 r2 rest tok tok2 cook hL hcnt hli
      (by rw [hhd]; exact initHeaders_no_csrf) (by rw [hhd]; exact initHeaders_no_auth)
      henv hok1 htok hok2 htok2 hcook
    have hrun : loginProtect L R F now c = loginProtectBody L R now c := by
      unfold loginProtect
      dsimp only
      rw [if_neg hns, if_neg (by simp [hli])]
    refine ⟨_, hrun.trans hbody, rfl, ?_, ?_⟩
    · simp
    · exact loginProtect_noop L R F now _ rfl
        (by exact Nat.not_lt.mpr (Nat.le_add_right now (F * 1000)))
  · intro r1 r2 rest tok tok2 cook hL hcnt hli hst henv hok1 htok hok2 htok2 hcook
    have hbody := loginProtectBody_run L R now
      ⟨{ c.state with loggedIn := false, headers := initHeaders }, c.env, c.log⟩
      r1 r2 rest tok tok2 cook hL hcnt rfl (by exact initHeaders_no_csrf)
      (by exact initHeaders_no_auth) henv hok1 htok hok2 htok2 hcook
    have hrun : loginProtect L R F now c = loginProtectBody L R now
        ⟨{ c.state with loggedIn := false, headers := initHeaders }, c.env, c.log⟩ := by
      unfold loginProtect
      dsimp only
      rw [if_pos hst]
      simp only [Bool.false_eq_true, if_false]
    refine ⟨_, hrun.trans hbody, rfl, rfl, rfl⟩

/-- C3 witness: the three lifecycle clauses at concrete inputs — a warm
session is a no-op, a fresh client logs in once and the immediate second
call does nothing, and a stale session re-authenticates. -/
theorem login_idempotence_and_renewal_witness :
    (loginProtect 2 300 1800 20
      ⟨{ initialState with loggedIn := true, loginAge := 20 }, [], []⟩ =
      (⟨{ initialState with loggedIn := true, loginAge := 20 }, [], []⟩, true)) ∧
    (∃ c1, loginProtect 2 300 1800 5
        ⟨initialState, [.netResp probeResp, .netResp authResp], []⟩ = (c1, true) ∧
      c1.log = [.probeRoot, .auth] ∧ c1.log.count .auth = 1 ∧
      loginProtect 2 300 1800 5 c1 = (c1, true)) ∧
    (∃ c1, loginProtect 2 300 1800 2000000
        ⟨{ initialState with loggedIn := true, loginAge := 0 },
          [.netResp probeResp, .netResp authResp], []⟩ = (c1, true) ∧
      c1.log = [.probeRoot, .auth] ∧ c1.state.loggedIn = true ∧
      c1.state.loginAge = 2000000) := by
  refine ⟨?_, ?_, ?_⟩
  · exact (login_idempotence_and_renewal 2 300 1800 20
      ⟨{ initialState with loggedIn := true, loginAge := 20 }, [], []⟩).1 rfl (by decide)
  · obtain ⟨c1, h1, h2, h3, h4⟩ := (login_idempotence_and_renewal 2 300 1800 5
      ⟨initialState, [.netResp probeResp, .netResp authResp], []⟩).2.1 probeResp authResp
      [] "tokenA" "tokenB" "cookie1" (by omega) rfl rfl rfl (by decide) rfl (by decide)
      (by decide) (by decide) (by decide) (by decide)
    exact ⟨c1, h1, by simpa using h2, by simpa using h3, h4⟩
  · obtain ⟨c1, h1, h2, h3, h4⟩ := (login_idempotence_and_renewal 2 300 1800 2000000
      ⟨{ initialState with loggedIn := true, loginAge := 0 },
        [.netResp probeResp, .netResp authResp], []⟩).2.2 probeResp authResp
      [] "tokenA" "tokenB" "cookie1" (by omega) rfl rfl (by decide) rfl (by decide)
      (by decide) (by decide) (by decide) (by decide)
    exact ⟨c1, h1, by simpa using h2, h3, h4⟩

/-- C6: the code bug evaluated at the failing input.  A listener is up and
configured and the silence window elapses with no keepalive.  Because the
open/ping handlers were registered unbound, the timer and the subsequent
writes live on the socket object (second conjunct), the client still holds
its websocket handle (first conjunct), and the next synchronization cycle
therefore returns immediately instead of reconnecting (third conjunct) —
the connection is never terminated and the handle and configured flag of
the client are never cleared, contrary to the claim. -/
theorem heartbeat_misbound_listener_stays :
    staleListenerCtx.state.eventListener = true ∧
    heartbeatTimerFireMisbound (heartbeatEventListenerMisbound 100 7 ⟨none, none, none⟩) =
      ⟨some 100007, none, some false⟩ ∧
    launchEventListener 2 300 1800 20 staleListenerCtx = (staleListenerCtx, true) :=
  ⟨rfl, rfl, rfl⟩

end Protect
